import Mathlib

/-!
Verification of the proctoring core of RUBIX26_15_ICodeSpeed:
shallow embedding of the alert state store (`alert_communicator.py`),
the streak tracker and session logger (`proctor_logger.py`),
the shared frame buffer (`shared_frame_buffer.py`) and the presence
stage of the pipeline controller (`proctor_pipeline.py`), with
theorems settling the spec's claims about them.

Timestamps are modelled as rationals (Python `time.time()` floats);
alert-state slots keep the source's 0/1 integers.
-/

namespace AlertComm

/-- State of `AlertCommunicator` (alert_communicator.py): the boolean
alert vector (as 0/1 integers, as in the source), the dirty flag and
the per-slot cooldown timestamps.  File-write bookkeeping fields that
no claim touches (`last_write_time`, `write_interval`) are omitted. -/
structure Comm where
  alert_state : List ℕ
  pending_write : Bool
  alert_cooldowns : List ℚ
  cooldown_duration : ℚ
deriving DecidableEq, Repr

/-- The fresh state built by `AlertCommunicator.__init__` with the
default `cooldown_duration=1.0`. -/
def initComm : Comm :=
  { alert_state := [0, 0, 0, 0, 0]
    pending_write := false
    alert_cooldowns := [0, 0, 0, 0, 0]
    cooldown_duration := 1 }

/-- `AlertCommunicator.set_alert(index, value, force)` evaluated at an
explicit `current_time`.  Returns the `bool` result of the Python method
together with the updated state.  Mirrors the source: index bounds check,
value normalisation, cooldown check only for non-forced activation, then
the change check; the cooldown timestamp is updated only on activation. -/
def set_alert (c : Comm) (index : ℤ) (value : Bool) (force : Bool)
    (current_time : ℚ) : Bool × Comm :=
  if index < 0 ∨ index ≥ (c.alert_state.length : ℤ) then
    (false, c)
  else
    let i : ℕ := index.toNat
    let v : ℕ := if value then 1 else 0
    if ¬force ∧ v = 1 ∧ current_time - c.alert_cooldowns.getD i 0 < c.cooldown_duration then
      (false, c)
    else if c.alert_state.getD i 0 ≠ v then
      let c' := { c with alert_state := c.alert_state.set i v, pending_write := true }
      if v = 1 then
        (true, { c' with alert_cooldowns := c'.alert_cooldowns.set i current_time })
      else
        (true, c')
    else
      (false, c)

/-- Index of the phone alert (`ALERT_PHONE = 0`). -/
def ALERT_PHONE : ℤ := 0

/-- Index of the no-face alert (`ALERT_NO_FACE = 1`). -/
def ALERT_NO_FACE : ℤ := 1

/-- Index of the multiple-faces alert (`ALERT_MULTI_FACE = 2`). -/
def ALERT_MULTI_FACE : ℤ := 2

/-- Index of the face-mismatch alert (`ALERT_FACE_MISMATCH = 3`). -/
def ALERT_FACE_MISMATCH : ℤ := 3

/-- Index of the eye-movement alert (`ALERT_EYE_MOVEMENT = 4`). -/
def ALERT_EYE_MOVEMENT : ℤ := 4

/-- `set_phone_detected(detected)`: forced activation of the phone slot. -/
def set_phone_detected (c : Comm) (detected : Bool) (current_time : ℚ) : Bool × Comm :=
  set_alert c ALERT_PHONE detected true current_time

end AlertComm

namespace AlertComm

theorem set_alert_cooldown_duration (c : Comm) (i : ℤ) (v f : Bool) (t : ℚ) :
    (set_alert c i v f t).2.cooldown_duration = c.cooldown_duration := by
  unfold set_alert
  dsimp only
  split_ifs <;> rfl

theorem set_alert_state_length (c : Comm) (i : ℤ) (v f : Bool) (t : ℚ) :
    (set_alert c i v f t).2.alert_state.length = c.alert_state.length := by
  unfold set_alert
  dsimp only
  split_ifs <;> simp [List.length_set]

/-- An honored (changed=true) activation with `force=false` records the call
time in the cooldown slot and raises the alert slot. -/
theorem set_alert_honored_activation (c c1 : Comm) (k : ℤ) (t1 : ℚ)
    (hk0 : 0 ≤ k) (hk5 : k < (c.alert_state.length : ℤ))
    (h1 : set_alert c k true false t1 = (true, c1)) :
    c1 = { c with alert_state := c.alert_state.set k.toNat 1,
                  pending_write := true,
                  alert_cooldowns := c.alert_cooldowns.set k.toNat t1 } := by
  unfold set_alert at h1
  rw [if_neg (by omega)] at h1
  simp only [Bool.not_false, true_and, and_true, ne_eq] at h1
  split_ifs at h1 <;> first | (exact h1.symm) | simp_all

/-- C2: once an activation has been honored at time `t1`, a second non-forced
activation of the same kind at any time `t2` with `t2 - t1 < cooldown_duration`
returns `changed=false` and leaves the state (alert vector, cooldown
timestamps, dirty flag) exactly as it was after the first call. -/
theorem cooldown_blocks_second_activation (c c1 : Comm) (k : ℤ) (t1 t2 : ℚ)
    (hk0 : 0 ≤ k) (hk5 : k < (c.alert_state.length : ℤ))
    (hclen : c.alert_cooldowns.length = c.alert_state.length)
    (h1 : set_alert c k true false t1 = (true, c1))
    (h2 : t2 - t1 < c.cooldown_duration) :
    set_alert c1 k true false t2 = (false, c1) := by
  have hc1 := set_alert_honored_activation c c1 k t1 hk0 hk5 h1
  subst hc1
  unfold set_alert
  rw [if_neg (by simp [List.length_set]; omega)]
  dsimp only
  rw [if_pos]
  refine ⟨by simp, rfl, ?_⟩
  rw [List.getD_eq_getElem?_getD, List.getElem?_set_self (by omega)]
  simpa using h2

/-- C3: deactivation is never suppressed.  If the slot of kind `k` is
currently raised, `set_alert k false` returns `changed=true`, lowers exactly
that slot and leaves every cooldown timestamp unchanged, whatever the
cooldown state and the `force` flag. -/
theorem deactivation_never_suppressed (c : Comm) (k : ℤ) (f : Bool) (t : ℚ)
    (hk0 : 0 ≤ k) (hk5 : k < (c.alert_state.length : ℤ))
    (hactive : c.alert_state.getD k.toNat 0 = 1) :
    set_alert c k false f t =
      (true, { c with alert_state := c.alert_state.set k.toNat 0,
                      pending_write := true }) := by
  have hact' : c.alert_state[k.toNat]?.getD 0 = 1 := by
    simpa [List.getD_eq_getElem?_getD] using hactive
  unfold set_alert
  rw [if_neg (by omega)]
  simp [List.getD_eq_getElem?_getD, hact']

/-- Witness for `deactivation_never_suppressed`: lowering slot 1 of a state
in which that slot is raised succeeds. -/
theorem deactivation_never_suppressed_example :
    set_alert { initComm with alert_state := [0, 1, 0, 0, 0] } 1 false false 50 =
      (true, { initComm with alert_state := [0, 0, 0, 0, 0], pending_write := true }) := by
  have h := deactivation_never_suppressed
    { initComm with alert_state := [0, 1, 0, 0, 0] } 1 false 50
    (by norm_num) (by norm_num) (by simp [initComm])
  simpa [initComm] using h

/-- C9: `set_alert` with any index outside `0..4` returns `false` and leaves
the whole state (alert vector, cooldown timestamps, dirty flag) untouched. -/
theorem set_alert_out_of_range (c : Comm) (i : ℤ) (v f : Bool) (t : ℚ)
    (hlen : c.alert_state.length = 5)
    (hout : i < 0 ∨ 5 ≤ i) :
    set_alert c i v f t = (false, c) := by
  unfold set_alert
  rw [if_pos (by omega)]

/-- Witness for `set_alert_out_of_range`: index 5 on the fresh state. -/
theorem set_alert_out_of_range_example :
    set_alert initComm 5 true true 123 = (false, initComm) :=
  set_alert_out_of_range initComm 5 true true 123 (by simp [initComm]) (Or.inr le_rfl)

/-- Witness for `cooldown_blocks_second_activation`: kind 1 activated at
`t=100` on the fresh state, retried at `t=100+1/2` with the default
1-second cooldown. -/
theorem cooldown_blocks_second_activation_example :
    set_alert { alert_state := [0, 1, 0, 0, 0], pending_write := true,
                alert_cooldowns := [0, 100, 0, 0, 0], cooldown_duration := 1 }
        1 true false (100 + 1/2) =
      (false, { alert_state := [0, 1, 0, 0, 0], pending_write := true,
                alert_cooldowns := [0, 100, 0, 0, 0], cooldown_duration := 1 }) :=
  cooldown_blocks_second_activation initComm
    { alert_state := [0, 1, 0, 0, 0], pending_write := true,
      alert_cooldowns := [0, 100, 0, 0, 0], cooldown_duration := 1 }
    1 100 (100 + 1/2)
    (by norm_num) (by simp [initComm]) (by simp [initComm])
    (by norm_num [set_alert, initComm]) (by norm_num [initComm])

/-- C1 (counterexample): with the fresh state, two forced phone activations
1ms apart do NOT both return `changed=true`: the second call returns `false`
(the slot is already raised) and the cooldown timestamp stays at the first
call's time instead of being updated to the second call's time. -/
theorem forced_double_activation_second_not_changed :
    (set_alert (set_alert initComm ALERT_PHONE true true 1000).2
        ALERT_PHONE true true (1000 + 1/1000)).1 = false ∧
    (set_alert (set_alert initComm ALERT_PHONE true true 1000).2
        ALERT_PHONE true true (1000 + 1/1000)).2.alert_cooldowns.getD 0 0 = 1000 := by
  constructor <;> simp [set_alert, initComm, ALERT_PHONE]

/-- C1 (amended): starting from an inactive PhoneDetected slot, the first
forced activation returns `changed=true` and sets the cooldown timestamp to
its call time; the second forced activation — at any later time, however
close — returns `changed=false` and changes nothing, because the slot is
already raised (force bypasses the cooldown check, not the change check). -/
theorem forced_phone_first_updates_second_unchanged (c : Comm) (t1 t2 : ℚ)
    (hlen : c.alert_state.length = 5) (hclen : c.alert_cooldowns.length = 5)
    (hinactive : c.alert_state.getD 0 0 = 0) :
    (set_alert c ALERT_PHONE true true t1).1 = true ∧
    (set_alert c ALERT_PHONE true true t1).2.alert_cooldowns.getD 0 0 = t1 ∧
    set_alert (set_alert c ALERT_PHONE true true t1).2 ALERT_PHONE true true t2 =
      (false, (set_alert c ALERT_PHONE true true t1).2) := by
  have hin' : c.alert_state[(0 : ℕ)]?.getD 0 = 0 := by
    simpa [List.getD_eq_getElem?_getD] using hinactive
  have hstep : set_alert c ALERT_PHONE true true t1 =
      (true, { c with alert_state := c.alert_state.set 0 1,
                      pending_write := true,
                      alert_cooldowns := c.alert_cooldowns.set 0 t1 }) := by
    unfold set_alert ALERT_PHONE
    rw [if_neg (by omega)]
    simp [List.getD_eq_getElem?_getD, hin']
  refine ⟨by rw [hstep], ?_, ?_⟩
  · rw [hstep]
    dsimp only
    have hlt : (0 : ℕ) < c.alert_cooldowns.length := by omega
    simp [List.getD_eq_getElem?_getD, List.getElem?_set_self hlt]
  · rw [hstep]
    unfold set_alert ALERT_PHONE
    rw [if_neg (by simp only [List.length_set]; omega)]
    have hlt : (0 : ℕ) < c.alert_state.length := by omega
    simp [List.getD_eq_getElem?_getD, List.getElem?_set_self hlt]

/-- Witness for `forced_phone_first_updates_second_unchanged` at the fresh
state with `t1=1000`, `t2=1000+1/1000` (the claim's 1ms apart). -/
theorem forced_phone_first_updates_second_unchanged_example :
    (set_alert initComm ALERT_PHONE true true 1000).1 = true ∧
    (set_alert initComm ALERT_PHONE true true 1000).2.alert_cooldowns.getD 0 0 = 1000 ∧
    set_alert (set_alert initComm ALERT_PHONE true true 1000).2 ALERT_PHONE true true
        (1000 + 1/1000) =
      (false, (set_alert initComm ALERT_PHONE true true 1000).2) :=
  forced_phone_first_updates_second_unchanged initComm 1000 (1000 + 1/1000)
    (by simp [initComm]) (by simp [initComm]) (by simp [initComm])

end AlertComm

namespace Tracker

/-- One active streak of `AlertTracker` (proctor_logger.py): the dict
`{start_ts, last_ts, count}`. -/
structure Streak where
  start_ts : ℚ
  last_ts : ℚ
  count : ℕ
deriving DecidableEq, Repr

/-- An entry of the `ended_streaks` list built by
`AlertTracker._check_timeouts`: `{alert_type, duration, count}` with
`duration = last_ts - start_ts`. -/
structure EndedStreak (K : Type) where
  alert_type : K
  duration : ℚ
  count : ℕ
deriving DecidableEq, Repr

/-- State of `AlertTracker`: the `active_streaks` dict (as an insertion
ordered association list, matching a Python `dict`) and the timeout. -/
structure AlertTracker (K : Type) where
  active_streaks : List (K × Streak)
  streak_timeout : ℚ
deriving DecidableEq, Repr

/-- Python `dict` lookup `d.get(k)` / `k in d` on an association list. -/
def dictGet? {K V : Type} [DecidableEq K] : List (K × V) → K → Option V
  | [], _ => none
  | (k', v') :: rest, k => if k' = k then some v' else dictGet? rest k

/-- Python `dict` assignment `d[k] = v`: replaces the value of an existing
key in place, appends a new key at the end (insertion order preserved). -/
def dictSet {K V : Type} [DecidableEq K] : List (K × V) → K → V → List (K × V)
  | [], k, v => [(k, v)]
  | (k', v') :: rest, k, v =>
      if k' = k then (k, v) :: rest else (k', v') :: dictSet rest k v

/-- The single pass of `AlertTracker._check_timeouts` over the
`active_streaks` dict: every streak with `now - last_ts > timeout` is
moved (in iteration order) to the ended list with
`duration = last_ts - start_ts`; the others are kept in order. -/
def sweep {K : Type} (timeout now : ℚ) :
    List (K × Streak) → List (EndedStreak K) × List (K × Streak)
  | [] => ([], [])
  | (k, s) :: rest =>
      let (e, r) := sweep timeout now rest
      if now - s.last_ts > timeout then
        (⟨k, s.last_ts - s.start_ts, s.count⟩ :: e, r)
      else
        (e, (k, s) :: r)

/-- `AlertTracker._check_timeouts(current_time)`: removes all timed-out
streaks from the tracker and returns them. -/
def check_timeouts {K : Type} (t : AlertTracker K) (current_time : ℚ) :
    List (EndedStreak K) × AlertTracker K :=
  let (ended, remaining) := sweep t.streak_timeout current_time t.active_streaks
  (ended, { t with active_streaks := remaining })

/-- Result tuple of `AlertTracker.should_log` minus the `duration_str`
component, which the source always returns as `None`. -/
structure RecordResult (K : Type) where
  log_now : Bool
  is_new_streak : Bool
  streak_count : ℕ
  ended_streaks : List (EndedStreak K)
deriving DecidableEq, Repr

/-- `AlertTracker.should_log(alert_type, message, current_time)`.  The
`message` argument is unused by the source ("only alert_type matters") and
is omitted.  First sweeps timeouts over all active streaks, then either
continues the existing streak of `alert_type` (count+1, last_ts updated,
no log) or starts a fresh one (log, is_new_streak). -/
def should_log {K : Type} [DecidableEq K] (t : AlertTracker K) (alert_type : K)
    (current_time : ℚ) : RecordResult K × AlertTracker K :=
  let (ended, t1) := check_timeouts t current_time
  match dictGet? t1.active_streaks alert_type with
  | some streak =>
      if current_time - streak.last_ts ≤ t1.streak_timeout then
        (⟨false, false, streak.count + 1, ended⟩,
         { t1 with active_streaks :=
             (dictSet t1.active_streaks alert_type
               { streak with count := streak.count + 1, last_ts := current_time }) })
      else
        (⟨true, true, 1, ended⟩,
         { t1 with active_streaks :=
             (dictSet t1.active_streaks alert_type ⟨current_time, current_time, 1⟩) })
  | none =>
      (⟨true, true, 1, ended⟩,
       { t1 with active_streaks :=
           (dictSet t1.active_streaks alert_type ⟨current_time, current_time, 1⟩) })

/-- A fresh tracker with the default `streak_timeout=5.0` used by
`ProctorLogger.__init__`. -/
def initTracker (K : Type) : AlertTracker K := ⟨[], 5⟩

/-- A `dictGet?` hit is a member of the association list. -/
theorem dictGet?_mem {K V : Type} [DecidableEq K] (l : List (K × V)) (k : K) (v : V)
    (h : dictGet? l k = some v) : (k, v) ∈ l := by
  induction l with
  | nil => simp [dictGet?] at h
  | cons p rest ih =>
      obtain ⟨k', v'⟩ := p
      by_cases hk : k' = k
      · subst hk
        simp [dictGet?] at h
        simp [h]
      · simp [dictGet?, hk] at h
        exact List.mem_cons_of_mem _ (ih h)

/-- A timed-out entry of the dict lands in the ended list of `sweep`. -/
theorem sweep_mem_ended {K : Type} (timeout now : ℚ) (l : List (K × Streak))
    (k : K) (s : Streak) (hmem : (k, s) ∈ l)
    (hto : now - s.last_ts > timeout) :
    (⟨k, s.last_ts - s.start_ts, s.count⟩ : EndedStreak K) ∈ (sweep timeout now l).1 := by
  induction l with
  | nil => simp at hmem
  | cons p rest ih =>
      rcases List.mem_cons.mp hmem with hp | hrest
      · subst hp
        simp only [sweep]
        rw [if_pos hto]
        simp
      · have := ih hrest
        obtain ⟨k', s'⟩ := p
        simp only [sweep]
        split_ifs <;> simp [this]

/-- C4: streak-suppression scenario from the spec.  With the default
timeout 5, events for kind 0 at `t=0,1,2` yield `is_new_streak` only at
`t=0` (and no ended streaks); a fourth event at `t=10` starts a new streak
and returns exactly one ended-streak record `{kind 0, duration 2, count 3}`. -/
theorem streak_scenario_timeout5 :
    ((should_log (initTracker ℕ) 0 0).1.is_new_streak = true ∧
     (should_log (initTracker ℕ) 0 0).1.ended_streaks = []) ∧
    ((should_log (should_log (initTracker ℕ) 0 0).2 0 1).1.is_new_streak = false ∧
     (should_log (should_log (initTracker ℕ) 0 0).2 0 1).1.ended_streaks = []) ∧
    ((should_log (should_log (should_log (initTracker ℕ) 0 0).2 0 1).2 0 2).1.is_new_streak
        = false ∧
     (should_log (should_log (should_log (initTracker ℕ) 0 0).2 0 1).2 0 2).1.ended_streaks
        = []) ∧
    ((should_log (should_log (should_log (should_log (initTracker ℕ) 0 0).2 0 1).2
        0 2).2 0 10).1.is_new_streak = true ∧
     (should_log (should_log (should_log (should_log (initTracker ℕ) 0 0).2 0 1).2
        0 2).2 0 10).1.ended_streaks = [⟨0, 2, 3⟩]) := by
  norm_num [should_log, check_timeouts, sweep, dictGet?, dictSet, initTracker]

/-- C5 (counterexample): `_check_timeouts` sweeps every active streak, not
only the streaks of *other* kinds.  Recording kind 0 at `t=0` and again at
`t=10` (timeout 5) returns the recorded kind's own timed-out streak in
`ended_streaks`. -/
theorem own_kind_appears_in_ended_streaks :
    (should_log (should_log (initTracker ℕ) 0 0).2 0 10).1.ended_streaks
      = [⟨0, 0, 1⟩] := by
  norm_num [should_log, check_timeouts, sweep, dictGet?, dictSet, initTracker]

/-- C5 (amended): `ended_streaks` reports *every* timed-out active streak,
including the recorded kind's own: if the recorded kind has an active
streak with `now - last_ts > timeout`, that streak's record
`{kind, duration=last_ts-start_ts, count}` appears in `ended_streaks`
(and the streak is restarted, per `streak_scenario_timeout5`). -/
theorem ended_streaks_contains_own_timed_out {K : Type} [DecidableEq K]
    (t : AlertTracker K) (k : K) (s : Streak) (now : ℚ)
    (hs : dictGet? t.active_streaks k = some s)
    (hto : now - s.last_ts > t.streak_timeout) :
    (⟨k, s.last_ts - s.start_ts, s.count⟩ : EndedStreak K)
      ∈ (should_log t k now).1.ended_streaks := by
  have hmem := dictGet?_mem _ _ _ hs
  have hended := sweep_mem_ended t.streak_timeout now t.active_streaks k s hmem hto
  unfold should_log check_timeouts
  dsimp only
  split <;> first | (split <;> exact hended) | exact hended

/-- Witness for `ended_streaks_contains_own_timed_out`: a tracker holding
a single streak of kind 0 last seen at `t=0`, queried for kind 0 at
`t=10` with timeout 5. -/
theorem ended_streaks_contains_own_timed_out_example :
    (⟨0, 0, 1⟩ : EndedStreak ℕ)
      ∈ (should_log (⟨[(0, ⟨0, 0, 1⟩)], 5⟩ : AlertTracker ℕ) 0 10).1.ended_streaks := by
  have h := ended_streaks_contains_own_timed_out ⟨[(0, ⟨0, 0, 1⟩)], 5⟩ 0 ⟨0, 0, 1⟩ 10
    (by norm_num [dictGet?]) (by norm_num)
  simpa using h

end Tracker

namespace Logger

open Tracker

/-- One entry of `session_data['alerts']` appended by
`ProctorLogger.log_alert`: timestamp, type, message, severity and the
streak count reported by the tracker.  The `metadata` dict (opaque,
defaulted to `{}`) is omitted. -/
structure AlertEvent (K : Type) where
  timestamp : ℚ
  type : K
  message : String
  severity : String
  streak_count : ℕ
deriving DecidableEq, Repr

/-- The session state of `ProctorLogger` that the claims touch: the
in-memory `alerts` list, the statistics counters (`total_frames`,
`total_alerts` and the per-kind `alert_types` dict) and the wrapped
`AlertTracker`.  File paths, the file handler and the session id bookkeeping
are omitted. -/
structure ProctorLogger (K : Type) where
  alerts : List (AlertEvent K)
  total_frames : ℕ
  total_alerts : ℕ
  alert_types : List (K × ℕ)
  tracker : AlertTracker K
deriving DecidableEq, Repr

/-- The state built by `ProctorLogger.__init__`: empty statistics and a
fresh tracker with `streak_timeout=5.0`. -/
def initLogger (K : Type) : ProctorLogger K :=
  ⟨[], 0, 0, [], initTracker K⟩

/-- `ProctorLogger.log_alert(alert_type, message, severity)` at an explicit
`current_time`.  Calls the tracker, always appends the alert to the session
data and increments `total_alerts` and the per-kind count; whether a log
line is emitted (`should_log_now and is_new_streak`) does not affect this
state.  The emitted file lines are I/O and are not part of the state. -/
def log_alert {K : Type} [DecidableEq K] (l : ProctorLogger K) (alert_type : K)
    (message severity : String) (current_time : ℚ) : ProctorLogger K :=
  let (res, tracker') := should_log l.tracker alert_type current_time
  let alert : AlertEvent K :=
    ⟨current_time, alert_type, message, severity, res.streak_count⟩
  { l with
    tracker := tracker'
    alerts := l.alerts ++ [alert]
    total_alerts := l.total_alerts + 1
    alert_types :=
      (dictSet l.alert_types alert_type
        ((dictGet? l.alert_types alert_type).getD 0 + 1)) }

/-- `ProctorLogger.log_frame_processed()`: increments `total_frames`. -/
def log_frame_processed {K : Type} (l : ProctorLogger K) : ProctorLogger K :=
  { l with total_frames := l.total_frames + 1 }

/-- An element of a call sequence against the session logger. -/
inductive LogOp (K : Type) where
  | alert (kind : K) (message severity : String) (t : ℚ)
  | frame
deriving DecidableEq, Repr

/-- Runs a sequence of `log_alert` / `log_frame_processed` calls. -/
def runOps {K : Type} [DecidableEq K] (l : ProctorLogger K) :
    List (LogOp K) → ProctorLogger K
  | [] => l
  | LogOp.alert k m s t :: rest => runOps (log_alert l k m s t) rest
  | LogOp.frame :: rest => runOps (log_frame_processed l) rest

/-- Sum of the per-kind counts in the `alert_types` dict. -/
def countsSum {K : Type} (l : ProctorLogger K) : ℕ :=
  (l.alert_types.map Prod.snd).sum

/-- Incrementing a key of a counter dict raises the sum of its values by
exactly one. -/
theorem dictIncr_sum {K : Type} [DecidableEq K] (d : List (K × ℕ)) (k : K) :
    ((dictSet d k ((dictGet? d k).getD 0 + 1)).map Prod.snd).sum
      = (d.map Prod.snd).sum + 1 := by
  induction d with
  | nil => simp [dictSet, dictGet?]
  | cons p rest ih =>
      obtain ⟨k', v'⟩ := p
      by_cases hk : k' = k
      · subst hk
        simp [dictSet, dictGet?]
        ring
      · simp [dictSet, dictGet?, hk, ih]
        ring

/-- `log_alert` bumps the length of the alerts list, `total_alerts`, the
recorded kind's per-kind count and the dict's value sum by exactly one,
and leaves `total_frames` alone — whatever the streak state. -/
theorem log_alert_increments {K : Type} [DecidableEq K] (l : ProctorLogger K)
    (k : K) (m s : String) (t : ℚ) :
    (log_alert l k m s t).alerts.length = l.alerts.length + 1 ∧
    (log_alert l k m s t).total_alerts = l.total_alerts + 1 ∧
    (dictGet? (log_alert l k m s t).alert_types k).getD 0
      = (dictGet? l.alert_types k).getD 0 + 1 ∧
    countsSum (log_alert l k m s t) = countsSum l + 1 ∧
    (log_alert l k m s t).total_frames = l.total_frames := by
  refine ⟨by simp [log_alert], by simp [log_alert], ?_, ?_, by simp [log_alert]⟩
  · simp only [log_alert]
    generalize (dictGet? l.alert_types k).getD 0 + 1 = v
    induction l.alert_types with
    | nil => simp [dictSet, dictGet?]
    | cons p rest ih =>
        obtain ⟨k', v'⟩ := p
        by_cases hk : k' = k
        · subst hk
          simp [dictSet, dictGet?]
        · simp [dictSet, dictGet?, hk, ih]
  · simp only [log_alert, countsSum]
    exact dictIncr_sum l.alert_types k

/-- The counter invariant of one state. -/
def counterInv {K : Type} (l : ProctorLogger K) : Prop :=
  l.total_alerts = l.alerts.length ∧ l.total_alerts = countsSum l

/-- C8 (core): after any call sequence against a fresh session logger,
`total_alerts` equals the length of the in-memory alerts list and equals
the sum of the per-kind counts. -/
theorem runOps_counterInv {K : Type} [DecidableEq K] (ops : List (LogOp K)) :
    counterInv (runOps (initLogger K) ops) := by
  suffices h : ∀ l : ProctorLogger K, counterInv l → counterInv (runOps l ops) by
    exact h _ ⟨rfl, rfl⟩
  induction ops with
  | nil => exact fun l h => h
  | cons op rest ih =>
      intro l hl
      cases op with
      | alert k m s t =>
          refine ih _ ?_
          obtain ⟨hl1, hl2⟩ := hl
          obtain ⟨h1, h2, h3, h4, h5⟩ := log_alert_increments l k m s t
          exact ⟨by omega, by omega⟩
      | frame =>
          exact ih _ hl

/-- C8: the session-logger counter invariant, together with the per-call
increments: `total_alerts = |alerts| = Σ per-kind counts` after every call
sequence, and each `log_alert` call raises `total_alerts`, the recorded
kind's count and the alerts-list length by exactly one, independent of the
streak outcome. -/
theorem session_logger_counters {K : Type} [DecidableEq K] (ops : List (LogOp K))
    (l : ProctorLogger K) (k : K) (m s : String) (t : ℚ) :
    ((runOps (initLogger K) ops).total_alerts
        = (runOps (initLogger K) ops).alerts.length ∧
     (runOps (initLogger K) ops).total_alerts = countsSum (runOps (initLogger K) ops)) ∧
    (log_alert l k m s t).total_alerts = l.total_alerts + 1 ∧
    (dictGet? (log_alert l k m s t).alert_types k).getD 0
      = (dictGet? l.alert_types k).getD 0 + 1 ∧
    (log_alert l k m s t).alerts.length = l.alerts.length + 1 := by
  obtain ⟨h1, h2, h3, h4, h5⟩ := log_alert_increments l k m s t
  exact ⟨runOps_counterInv ops, h2, h3, h1⟩

end Logger

namespace FrameBuf

/-- `SharedFrameBuffer.HEADER_SIZE`: six unsigned 32-bit fields. -/
def HEADER_SIZE : ℕ := 24

/-- `SharedFrameBuffer.MAX_FRAME_SIZE`: largest publishable payload. -/
def MAX_FRAME_SIZE : ℕ := 1920 * 1080 * 3

/-- Little-endian 4-byte encoding of an unsigned 32-bit value, as laid
down by `struct.pack('6I', ...)` on a little-endian platform. -/
def u32le (n : ℕ) : List ℕ :=
  [n % 256, n / 256 % 256, n / 65536 % 256, n / 16777216 % 256]

/-- The 24-byte header written by `write_frame`:
`width, height, channels, timestamp_sec, timestamp_usec, frame_size`. -/
def packHeader (width height channels ts_sec ts_usec frame_size : ℕ) : List ℕ :=
  u32le width ++ u32le height ++ u32le channels ++ u32le ts_sec ++ u32le ts_usec
    ++ u32le frame_size

/-- A frame as the buffer sees it: numpy shape `(height, width, channels)`
plus the raw bytes of `frame.tobytes()` (one byte per element, so
`data.length = frame.size`). -/
structure Frame where
  width : ℕ
  height : ℕ
  channels : ℕ
  data : List ℕ
deriving DecidableEq, Repr

/-- The memory-mapped region of `SharedFrameBuffer` as a byte list. -/
structure SharedFrameBuffer where
  buf : List ℕ
deriving DecidableEq, Repr

/-- Byte `i` of the region (reads past the end give 0; the real region is
fixed-size and zero-initialised). -/
def byteAt (b : List ℕ) (i : ℕ) : ℕ := b.getD i 0

/-- One little-endian u32 read at the head of a byte list. -/
def decode4 (b : List ℕ) : ℕ :=
  byteAt b 0 + 256 * byteAt b 1 + 65536 * byteAt b 2 + 16777216 * byteAt b 3

/-- `struct.unpack('6I', header_data)`: six consecutive little-endian u32
reads at offsets 0,4,8,12,16,20, yielding the header fields
`(width, height, channels, ts_sec, ts_usec, frame_size)`. -/
def read_header (b : List ℕ) : ℕ × ℕ × ℕ × ℕ × ℕ × ℕ :=
  let r1 := b.drop 4
  let r2 := r1.drop 4
  let r3 := r2.drop 4
  let r4 := r3.drop 4
  let r5 := r4.drop 4
  (decode4 b, decode4 r1, decode4 r2, decode4 r3, decode4 r4, decode4 r5)

/-- `SharedFrameBuffer.write_frame(frame)` at an explicit timestamp.
Rejects a payload over `MAX_FRAME_SIZE`; otherwise overwrites the start of
the region with header followed by the raw bytes, leaving the tail of the
region as it was. -/
def write_frame (b : SharedFrameBuffer) (frame : Frame) (ts_sec ts_usec : ℕ) :
    Bool × SharedFrameBuffer :=
  let frame_size := frame.data.length
  if frame_size > MAX_FRAME_SIZE then
    (false, b)
  else
    let written := packHeader frame.width frame.height frame.channels ts_sec ts_usec
      frame_size ++ frame.data
    (true, ⟨written ++ b.buf.drop written.length⟩)

/-- `SharedFrameBuffer.read_frame()`: parses the header; absent when
`width == 0 or height == 0 or frame_size == 0`; otherwise reads
`frame_size` payload bytes and reshapes them to `(height, width, channels)`
(`np.reshape` raises — caught, absent — unless the byte count matches),
and combines the two timestamp fields. -/
def read_frame (b : SharedFrameBuffer) : Option (Frame × ℚ) :=
  let (width, height, channels, ts_sec, ts_usec, frame_size) := read_header b.buf
  if width = 0 ∨ height = 0 ∨ frame_size = 0 then
    none
  else
    let frame_data := (b.buf.drop HEADER_SIZE).take frame_size
    if frame_data.length = height * width * channels then
      some (⟨width, height, channels, frame_data⟩, (ts_sec : ℚ) + (ts_usec : ℚ) / 1000000)
    else
      none

/-- The dictionary returned by `read_frame_info`. -/
structure FrameInfo where
  width : ℕ
  height : ℕ
  channels : ℕ
  timestamp : ℚ
  frame_size : ℕ
deriving DecidableEq, Repr

/-- `SharedFrameBuffer.read_frame_info()`: parses only the header; absent
when `width == 0 or height == 0` (note: `frame_size` is not checked); never
touches the payload area. -/
def read_frame_info (b : SharedFrameBuffer) : Option FrameInfo :=
  let (width, height, channels, ts_sec, ts_usec, frame_size) := read_header b.buf
  if width = 0 ∨ height = 0 then
    none
  else
    some ⟨width, height, channels, (ts_sec : ℚ) + (ts_usec : ℚ) / 1000000, frame_size⟩

theorem decode4_u32le (n : ℕ) (rest : List ℕ) (h : n < 4294967296) :
    decode4 (u32le n ++ rest) = n := by
  simp [decode4, u32le, byteAt]
  omega

theorem drop4_u32le (n : ℕ) (rest : List ℕ) : (u32le n ++ rest).drop 4 = rest := by
  have hl : (u32le n).length = 4 := rfl
  rw [← hl, List.drop_left]

/-- Parsing a packed header recovers the six fields (all < 2^32). -/
theorem read_header_packHeader (w h c s u f : ℕ) (rest : List ℕ)
    (hw : w < 4294967296) (hh : h < 4294967296) (hc : c < 4294967296)
    (hs : s < 4294967296) (hu : u < 4294967296) (hf : f < 4294967296) :
    read_header (packHeader w h c s u f ++ rest) = (w, h, c, s, u, f) := by
  unfold read_header packHeader
  simp only [List.append_assoc, drop4_u32le]
  rw [decode4_u32le _ _ hw, decode4_u32le _ _ hh, decode4_u32le _ _ hc,
    decode4_u32le _ _ hs, decode4_u32le _ _ hu, decode4_u32le _ _ hf]

/-- Dropping the 24 header bytes of a packed buffer leaves the payload. -/
theorem drop_headerSize_packHeader (w h c s u f : ℕ) (rest : List ℕ) :
    (packHeader w h c s u f ++ rest).drop HEADER_SIZE = rest := by
  have hl : (packHeader w h c s u f).length = HEADER_SIZE := rfl
  rw [← hl, List.drop_left]

/-- C7: frame-channel round trip.  Writing a `width=4, height=2,
channels=3` frame with any 24-byte payload into any prior buffer state
succeeds, reading it back returns exactly the written dimensions, bytes
and timestamp, and `read_frame_info` reports `frame_size = 24` (with the
same header fields) while depending only on the header: it returns the
same info whatever bytes follow the header. -/
theorem frame_roundtrip (b : SharedFrameBuffer) (data : List ℕ) (ts_sec ts_usec : ℕ)
    (hlen : data.length = 24) (hsec : ts_sec < 4294967296) (husec : ts_usec < 4294967296) :
    (write_frame b ⟨4, 2, 3, data⟩ ts_sec ts_usec).1 = true ∧
    read_frame (write_frame b ⟨4, 2, 3, data⟩ ts_sec ts_usec).2 =
      some (⟨4, 2, 3, data⟩, (ts_sec : ℚ) + (ts_usec : ℚ) / 1000000) ∧
    read_frame_info (write_frame b ⟨4, 2, 3, data⟩ ts_sec ts_usec).2 =
      some ⟨4, 2, 3, (ts_sec : ℚ) + (ts_usec : ℚ) / 1000000, 24⟩ ∧
    (∀ payload : List ℕ,
      read_frame_info ⟨packHeader 4 2 3 ts_sec ts_usec 24 ++ payload⟩ =
        some ⟨4, 2, 3, (ts_sec : ℚ) + (ts_usec : ℚ) / 1000000, 24⟩) := by
  have hwf : write_frame b ⟨4, 2, 3, data⟩ ts_sec ts_usec =
      (true, ⟨packHeader 4 2 3 ts_sec ts_usec 24 ++
        (data ++ b.buf.drop (packHeader 4 2 3 ts_sec ts_usec 24 ++ data).length)⟩) := by
    unfold write_frame
    rw [if_neg (by simp [MAX_FRAME_SIZE, hlen])]
    simp [hlen, List.append_assoc]
  have hinfo : ∀ payload : List ℕ,
      read_frame_info ⟨packHeader 4 2 3 ts_sec ts_usec 24 ++ payload⟩ =
        some ⟨4, 2, 3, (ts_sec : ℚ) + (ts_usec : ℚ) / 1000000, 24⟩ := by
    intro payload
    unfold read_frame_info
    rw [read_header_packHeader 4 2 3 ts_sec ts_usec 24 payload (by norm_num) (by norm_num)
      (by norm_num) hsec husec (by norm_num)]
    norm_num
  refine ⟨by rw [hwf], ?_, by rw [hwf]; exact hinfo _, hinfo⟩
  rw [hwf]
  unfold read_frame
  rw [read_header_packHeader 4 2 3 ts_sec ts_usec 24 _ (by norm_num) (by norm_num)
    (by norm_num) hsec husec (by norm_num)]
  dsimp only
  rw [if_neg (by norm_num)]
  rw [drop_headerSize_packHeader]
  have htake : (data ++ b.buf.drop (packHeader 4 2 3 ts_sec ts_usec 24 ++ data).length).take 24
      = data := by
    rw [← hlen, List.take_left]
  rw [htake, if_pos (by rw [hlen])]

/-- C10: the two readers use different absent conditions.  For any region
whose header parses to `width ≠ 0`, `height ≠ 0` but `frame_size = 0`,
`read_frame` returns absent while `read_frame_info` returns the populated
header record (it checks only width and height, not the payload length). -/
theorem readers_absent_conditions_differ (b : SharedFrameBuffer)
    (hw : (read_header b.buf).1 ≠ 0)
    (hh : (read_header b.buf).2.1 ≠ 0)
    (hf : (read_header b.buf).2.2.2.2.2 = 0) :
    read_frame b = none ∧
    read_frame_info b =
      some ⟨(read_header b.buf).1, (read_header b.buf).2.1, (read_header b.buf).2.2.1,
        ((read_header b.buf).2.2.2.1 : ℚ) + ((read_header b.buf).2.2.2.2.1 : ℚ) / 1000000,
        0⟩ := by
  rcases hrh : read_header b.buf with ⟨w, h, c, s, u, f⟩
  rw [hrh] at hw hh hf
  simp only at hw hh hf
  unfold read_frame read_frame_info
  rw [hrh]
  subst hf
  exact ⟨by simp, by simp [hw, hh]⟩

/-- Witness for `frame_roundtrip`: the 4x2x3 frame with bytes `0..23`
written at timestamp `1700000000.5` into an empty region. -/
theorem frame_roundtrip_example :
    (write_frame ⟨[]⟩ ⟨4, 2, 3, List.range 24⟩ 1700000000 500000).1 = true ∧
    read_frame (write_frame ⟨[]⟩ ⟨4, 2, 3, List.range 24⟩ 1700000000 500000).2 =
      some (⟨4, 2, 3, List.range 24⟩,
        ((1700000000 : ℕ) : ℚ) + ((500000 : ℕ) : ℚ) / 1000000) ∧
    read_frame_info (write_frame ⟨[]⟩ ⟨4, 2, 3, List.range 24⟩ 1700000000 500000).2 =
      some ⟨4, 2, 3, ((1700000000 : ℕ) : ℚ) + ((500000 : ℕ) : ℚ) / 1000000, 24⟩ ∧
    (∀ payload : List ℕ,
      read_frame_info ⟨packHeader 4 2 3 1700000000 500000 24 ++ payload⟩ =
        some ⟨4, 2, 3, ((1700000000 : ℕ) : ℚ) + ((500000 : ℕ) : ℚ) / 1000000, 24⟩) :=
  frame_roundtrip ⟨[]⟩ (List.range 24) 1700000000 500000
    (by simp) (by norm_num) (by norm_num)

/-- Witness for `readers_absent_conditions_differ`: a header advertising a
4x2x3 frame (timestamp 7s) with `frame_size = 0`. -/
theorem readers_absent_conditions_differ_example :
    read_frame ⟨packHeader 4 2 3 7 0 0⟩ = none ∧
    read_frame_info ⟨packHeader 4 2 3 7 0 0⟩ =
      some ⟨4, 2, 3, ((7 : ℕ) : ℚ) + ((0 : ℕ) : ℚ) / 1000000, 0⟩ := by
  have hrh : read_header (packHeader 4 2 3 7 0 0) = (4, 2, 3, 7, 0, 0) := by
    have h2 := read_header_packHeader 4 2 3 7 0 0 [] (by norm_num) (by norm_num)
      (by norm_num) (by norm_num) (by norm_num) (by norm_num)
    simpa using h2
  have h := readers_absent_conditions_differ ⟨packHeader 4 2 3 7 0 0⟩
    (by simp [hrh]) (by simp [hrh]) (by simp [hrh])
  simpa [hrh] using h

end FrameBuf

namespace Pipeline

/-- The externally observable actions of `ProctorPipeline.process_frame`
that the presence-stage claims are about, in program order: `set_alert`
requests issued on the `AlertCommunicator` (via `set_no_face`,
`set_multiple_faces`, `set_eye_movement`, `set_phone_detected`) and the
invocations of the identity (`_verify_face_sequential`), gaze
(`eye_detector.detect`) and object (`phone_detector.process_frame`)
stages. -/
inductive PEvent where
  | setNoFace (value : Bool)
  | setMultipleFaces (value : Bool)
  | identityStage
  | gazeStage
  | setEyeMovement (value : Bool)
  | phoneStage
  | setPhoneDetected (value : Bool)
deriving DecidableEq, Repr

/-- The pipeline configuration bits `process_frame` consults: which
detectors are loaded-and-enabled, and the `frame_skip` count. -/
structure PipelineCfg where
  face_detector_on : Bool
  face_matcher_on : Bool
  eye_detector_on : Bool
  phone_detector_on : Bool
  frame_skip : ℕ
deriving DecidableEq, Repr

/-- `ProctorPipeline.process_frame` projected onto its alert/stage events.
Inputs are the current `frame_counter` and the external detector results
for this frame: `num_faces_detected` (length of `face_detector.detect`,
`0` when the detector is off since `face_meshes` stays `[]`), whether any
eye detection carries RISK status, and the phone result's alert flag.
Returns the event list in program order and the new `frame_counter`
(incremented on a skipped frame, reset to 0 on a processed one).
Logging, annotation drawing and the `proctoring_results` accumulator are
not modelled; the non-exception path of each stage is taken. -/
def process_frame_events (cfg : PipelineCfg) (frame_counter : ℕ)
    (num_faces_detected : ℕ) (eye_risk : Bool) (phone_alert : Bool) :
    List PEvent × ℕ :=
  let fc := frame_counter + 1
  if fc ≤ cfg.frame_skip then
    ([], fc)
  else
    let num_faces := if cfg.face_detector_on then num_faces_detected else 0
    let faceEvents :=
      if num_faces > 1 then
        [PEvent.setMultipleFaces true, PEvent.setNoFace false]
      else if num_faces = 0 then
        [PEvent.setNoFace true, PEvent.setMultipleFaces false]
      else
        [PEvent.setNoFace false, PEvent.setMultipleFaces false] ++
        (if cfg.face_matcher_on then [PEvent.identityStage] else []) ++
        (if cfg.eye_detector_on then [PEvent.gazeStage, PEvent.setEyeMovement eye_risk]
         else [PEvent.setEyeMovement false])
    let phoneEvents :=
      if cfg.phone_detector_on then
        [PEvent.phoneStage, PEvent.setPhoneDetected phone_alert]
      else
        [PEvent.setPhoneDetected false]
    (faceEvents ++ phoneEvents, 0)

/-- C6: on every non-skipped frame the presence classification drives the
alert store as claimed — 0 faces requests `NoFace=true, MultipleFaces=false`
and neither the identity nor the gaze stage runs; more than one face
requests `MultipleFaces=true, NoFace=false` and neither stage runs;
exactly one face requests `NoFace=false, MultipleFaces=false` as the first
two actions, before anything else (in particular before the identity
stage). -/
theorem presence_stage_drives_alerts (cfg : PipelineCfg)
    (frame_counter num_faces_detected : ℕ) (eye_risk phone_alert : Bool)
    (hproc : cfg.frame_skip < frame_counter + 1) :
    ((if cfg.face_detector_on then num_faces_detected else 0) = 0 →
      PEvent.setNoFace true ∈
        (process_frame_events cfg frame_counter num_faces_detected eye_risk phone_alert).1 ∧
      PEvent.setMultipleFaces false ∈
        (process_frame_events cfg frame_counter num_faces_detected eye_risk phone_alert).1 ∧
      PEvent.identityStage ∉
        (process_frame_events cfg frame_counter num_faces_detected eye_risk phone_alert).1 ∧
      PEvent.gazeStage ∉
        (process_frame_events cfg frame_counter num_faces_detected eye_risk phone_alert).1) ∧
    (1 < (if cfg.face_detector_on then num_faces_detected else 0) →
      PEvent.setMultipleFaces true ∈
        (process_frame_events cfg frame_counter num_faces_detected eye_risk phone_alert).1 ∧
      PEvent.setNoFace false ∈
        (process_frame_events cfg frame_counter num_faces_detected eye_risk phone_alert).1 ∧
      PEvent.identityStage ∉
        (process_frame_events cfg frame_counter num_faces_detected eye_risk phone_alert).1 ∧
      PEvent.gazeStage ∉
        (process_frame_events cfg frame_counter num_faces_detected eye_risk phone_alert).1) ∧
    ((if cfg.face_detector_on then num_faces_detected else 0) = 1 →
      ∃ rest,
        (process_frame_events cfg frame_counter num_faces_detected eye_risk phone_alert).1 =
          PEvent.setNoFace false :: PEvent.setMultipleFaces false :: rest) := by
  have hskip : ¬(frame_counter + 1 ≤ cfg.frame_skip) := by omega
  refine ⟨?_, ?_, ?_⟩
  · intro h0
    simp only [process_frame_events, h0, hskip, if_false, gt_iff_lt, Nat.lt_irrefl,
      Nat.not_lt_zero, ite_true, ite_false]
    simp
    split_ifs <;> simp
  · intro h2
    simp only [process_frame_events, hskip, if_false, gt_iff_lt]
    rw [if_pos h2]
    split_ifs <;> simp
  · intro h1
    simp only [process_frame_events, h1, hskip, if_false, gt_iff_lt, Nat.lt_irrefl,
      ite_false, ite_true, Nat.one_ne_zero, List.append_assoc, List.cons_append]
    split_ifs <;> exact ⟨_, rfl⟩

/-- Witness for `presence_stage_drives_alerts`: all detectors enabled,
`frame_skip=2`, counter at 2 (third frame, processed), detector reporting
0 faces. -/
theorem presence_stage_drives_alerts_example :
    ((if (true : Bool) then (0 : ℕ) else 0) = 0 →
      PEvent.setNoFace true ∈
        (process_frame_events ⟨true, true, true, true, 2⟩ 2 0 false false).1 ∧
      PEvent.setMultipleFaces false ∈
        (process_frame_events ⟨true, true, true, true, 2⟩ 2 0 false false).1 ∧
      PEvent.identityStage ∉
        (process_frame_events ⟨true, true, true, true, 2⟩ 2 0 false false).1 ∧
      PEvent.gazeStage ∉
        (process_frame_events ⟨true, true, true, true, 2⟩ 2 0 false false).1) ∧
    (1 < (if (true : Bool) then (0 : ℕ) else 0) →
      PEvent.setMultipleFaces true ∈
        (process_frame_events ⟨true, true, true, true, 2⟩ 2 0 false false).1 ∧
      PEvent.setNoFace false ∈
        (process_frame_events ⟨true, true, true, true, 2⟩ 2 0 false false).1 ∧
      PEvent.identityStage ∉
        (process_frame_events ⟨true, true, true, true, 2⟩ 2 0 false false).1 ∧
      PEvent.gazeStage ∉
        (process_frame_events ⟨true, true, true, true, 2⟩ 2 0 false false).1) ∧
    ((if (true : Bool) then (0 : ℕ) else 0) = 1 →
      ∃ rest,
        (process_frame_events ⟨true, true, true, true, 2⟩ 2 0 false false).1 =
          PEvent.setNoFace false :: PEvent.setMultipleFaces false :: rest) :=
  presence_stage_drives_alerts ⟨true, true, true, true, 2⟩ 2 0 false false (by norm_num)

end Pipeline
